import Mathlib

/-!
Verification of the router-auto-connect decision engine
(`src/Chrome+Opera/background.js`).

The script observes navigations to certain IPv4 ranges, probes a fixed list
of (port, protocol) candidates, ranks the reachable ones by a weighted
score, and redirects the tab to the best candidate, suppressing repeated
redirects via a lock-key set.  All definitions below are shallow embeddings
of the JavaScript source; the network primitive (`fetch`) and the event
clock are modelled as explicit parameters.
-/

/-! ### Address classification (`ipToLong`, `isTargetIp`, lines 6-25) -/

/-- JavaScript `String.prototype.split('.')` on a list of characters.
`splitDots [] = [[]]` matches `''.split('.') = ['']`. -/
def splitDots : List Char → List (List Char)
  | [] => [[]]
  | c :: cs =>
    match splitDots cs with
    | [] => [[c]]
    | p :: ps => if c = '.' then [] :: p :: ps else (c :: p) :: ps

/-- Value of a decimal digit string, most significant digit first. -/
def digitsVal (p : List Char) : Nat :=
  p.foldl (fun a c => a * 10 + (c.toNat - 48)) 0

/-- JavaScript `parseInt(s, 10)` as used on the regex-validated octets:
the value of the leading run of decimal digits.  (The NaN result on a
digit-free string is not modelled; `isTargetIp` only calls this under the
dotted-quad regex guard, where every octet is a non-empty digit string.) -/
def parseIntJs (p : List Char) : Nat :=
  digitsVal (p.takeWhile Char.isDigit)

/-- Model of `ipToLong` (line 6): `ip.split('.').reduce((acc, octet) =>
(acc << 8) + parseInt(octet, 10), 0) >>> 0`.  The 32-bit `<<` truncation at
each step followed by the final `>>> 0` is congruent to reducing the exact
fold modulo 2^32. -/
def ipToLong (ip : String) : Nat :=
  ((splitDots ip.data).foldl (fun acc octet => acc * 256 + parseIntJs octet) 0) % 4294967296

/-- The regex guard `^(\d{1,3}\.){3}\d{1,3}$` of `isTargetIp` (line 12):
exactly four dot-separated groups of one to three decimal digits. -/
def matchesIpv4 (s : String) : Bool :=
  let ps := splitDots s.data
  ps.length == 4 && ps.all (fun p => decide (1 ≤ p.length) && decide (p.length ≤ 3) && p.all Char.isDigit)

/-- Model of `isTargetIp` (lines 10-25): regex-validate, convert, and test the two
configured ranges with inclusive bounds. -/
def isTargetIp (hostname : String) : Bool :=
  if matchesIpv4 hostname then
    let longIp := ipToLong hostname
    decide ((ipToLong "100.60.0.0" ≤ longIp ∧ longIp ≤ ipToLong "100.80.0.0") ∨
            (ipToLong "5.197.0.0" ≤ longIp ∧ longIp ≤ ipToLong "5.197.255.255"))
  else false

example : ipToLong "100.60.0.0" = 1681653760 := by decide
example : ipToLong "100.80.0.0" = 1682964480 := by decide
example : ipToLong "5.197.0.0" = 96796672 := by decide
example : ipToLong "5.197.255.255" = 96862207 := by decide
example : isTargetIp "100.60.0.0" = true := by decide
example : isTargetIp "100.59.255.255" = false := by decide
example : isTargetIp "example.com" = false := by decide
example : isTargetIp "5.196.256.0" = true := by decide

/-! ### Port probing (`checkPort`, lines 31-63) -/

/-- Result of one `fetch` attempt, as observed by `checkPort`'s
try/catch: either the promise resolved with some response (the status code
is irrelevant to the script), or it rejected with an error whose `name`
field is inspected (`"AbortError"` is the deadline cancellation). -/
inductive FetchResult where
  | response : FetchResult
  | error : String → FetchResult
deriving DecidableEq, Repr

/-- Probe outcome statuses used by the script. The spec calls
`PROBABLY_OPEN_SSL` by the name `SSL_ANOMALY`. -/
inductive Status where
  | OPEN
  | CLOSED
  | PROBABLY_OPEN_SSL
deriving DecidableEq, Repr

/-- The object literal `{ url, protocol, port, status }` returned by
`checkPort`. -/
structure PortCheck where
  url : String
  protocol : String
  port : Nat
  status : Status
deriving DecidableEq, Repr

/-- Model of `checkPort` (lines 31-63).  The deadline timer and `AbortController`
are external; their effect is the `error "AbortError"` fetch result. -/
def checkPort (hostname : String) (port : Nat) (protocol : String)
    (result : FetchResult) : PortCheck :=
  let targetUrl := protocol ++ "//" ++ hostname ++ ":" ++ toString port
  match result with
  | .response => ⟨targetUrl, protocol, port, .OPEN⟩
  | .error name =>
    if name = "AbortError" then ⟨targetUrl, protocol, port, .CLOSED⟩
    else if protocol = "https:" then ⟨targetUrl, protocol, port, .PROBABLY_OPEN_SSL⟩
    else ⟨targetUrl, protocol, port, .CLOSED⟩

example : (checkPort "100.60.0.1" 443 "https:" .response).url = "https://100.60.0.1:443" := by decide
example : (checkPort "100.60.0.1" 443 "https:" (.error "TypeError")).status = .PROBABLY_OPEN_SSL := rfl
example : (checkPort "100.60.0.1" 8080 "http:" (.error "TypeError")).status = .CLOSED := rfl

/-! ### Scan orchestration (`checks` / `Promise.all`, lines 94-102) -/

/-- The fixed candidate list of lines 94-100, in source order. -/
def candidates : List (Nat × String) :=
  [(443, "https:"), (8080, "https:"), (8888, "https:"), (8080, "http:"), (8888, "http:")]

/-- Model of `Promise.all(checks)` (line 102): every candidate is probed once; the
network primitive is the explicit parameter `net`, giving the fetch result
for each (port, protocol) pair. -/
def scan (hostname : String) (net : Nat → String → FetchResult) : List PortCheck :=
  candidates.map (fun c => checkPort hostname c.1 c.2 (net c.1 c.2))

/-! ### Priority ranking (`activePorts` filter and sort, lines 105-140) -/

/-- The filter of line 105: keep `OPEN` and `PROBABLY_OPEN_SSL` outcomes. -/
def activePred (r : PortCheck) : Bool :=
  r.status == .OPEN || r.status == .PROBABLY_OPEN_SSL

/-- The port weight table of line 133: `{ '443': 3, '8080': 2, '8888': 1 }`,
`|| 0` for unlisted ports. -/
def portPriority (port : Nat) : Nat :=
  if port == 443 then 3 else if port == 8080 then 2 else if port == 8888 then 1 else 0

/-- Model of `getWeight` (lines 115-137): status term (OPEN 100, PROBABLY_OPEN_SSL 50),
scheme term (https +10), port term. -/
def getWeight (item : PortCheck) : Nat :=
  (if item.status == .OPEN then 100 else if item.status == .PROBABLY_OPEN_SSL then 50 else 0)
  + (if item.protocol == "https:" then 10 else 0)
  + portPriority item.port

/-- One step of a stable descending sort by `getWeight`: a later element is
placed after every already-placed element of greater or equal weight. -/
def insertByWeight (x : PortCheck) : List PortCheck → List PortCheck
  | [] => [x]
  | y :: ys => if getWeight x ≤ getWeight y then y :: insertByWeight x ys else x :: y :: ys

/-- Model of the sort call on line 113, `activePorts.sort((a, b) => getWeight(b) - getWeight(a))`:
JavaScript `Array.prototype.sort` is stable, modelled as stable insertion
sort, descending by weight. -/
def sortByWeight (l : List PortCheck) : List PortCheck :=
  l.foldl (fun acc x => insertByWeight x acc) []

/-- The PriorityRanker of lines 105-140: filter to live outcomes, then
stably sort by descending weight. -/
def rank (results : List PortCheck) : List PortCheck :=
  sortByWeight (results.filter activePred)

/-- Descending-weight order between two outcomes. -/
def wge (a b : PortCheck) : Prop := getWeight b ≤ getWeight a

theorem mem_insertByWeight {a x : PortCheck} {l : List PortCheck} :
    a ∈ insertByWeight x l ↔ a = x ∨ a ∈ l := by
  induction l with
  | nil => simp [insertByWeight]
  | cons y ys ih =>
    by_cases h : getWeight x ≤ getWeight y
    · simp [insertByWeight, h, ih]
      tauto
    · simp [insertByWeight, h]

theorem insertByWeight_perm (x : PortCheck) (l : List PortCheck) :
    (insertByWeight x l).Perm (x :: l) := by
  induction l with
  | nil => exact List.Perm.refl _
  | cons y ys ih =>
    by_cases h : getWeight x ≤ getWeight y
    · simp only [insertByWeight, h, if_pos]
      exact (ih.cons y).trans (List.Perm.swap x y ys)
    · simp [insertByWeight, h]

theorem insertByWeight_pairwise {x : PortCheck} {l : List PortCheck}
    (hl : l.Pairwise wge) : (insertByWeight x l).Pairwise wge := by
  induction l with
  | nil => simp [insertByWeight, wge]
  | cons y ys ih =>
    rw [List.pairwise_cons] at hl
    by_cases h : getWeight x ≤ getWeight y
    · simp only [insertByWeight, h, if_pos, List.pairwise_cons]
      refine ⟨?_, ih hl.2⟩
      intro a ha
      rcases mem_insertByWeight.mp ha with rfl | ha
      · exact h
      · exact hl.1 a ha
    · simp only [insertByWeight, h, if_neg, not_false_iff, List.pairwise_cons]
      push_neg at h
      refine ⟨?_, hl⟩
      intro a ha
      rcases List.mem_cons.mp ha with rfl | ha
      · exact Nat.le_of_lt h
      · exact Nat.le_trans (hl.1 a ha) (Nat.le_of_lt h)

theorem filter_weight_eq_nil {w : Nat} {l : List PortCheck}
    (hhead : ∀ a ∈ l, getWeight a < w) :
    l.filter (fun r => getWeight r == w) = [] := by
  rw [List.filter_eq_nil_iff]
  intro a ha
  simp only [beq_iff_eq]
  exact Nat.ne_of_lt (hhead a ha)

theorem insertByWeight_filter (x : PortCheck) {l : List PortCheck} (w : Nat)
    (hl : l.Pairwise wge) :
    (insertByWeight x l).filter (fun r => getWeight r == w) =
      l.filter (fun r => getWeight r == w) ++ (if getWeight x == w then [x] else []) := by
  induction l with
  | nil => by_cases h : getWeight x == w <;> simp [insertByWeight, h]
  | cons y ys ih =>
    rw [List.pairwise_cons] at hl
    by_cases h : getWeight x ≤ getWeight y
    · simp only [insertByWeight, h, if_pos]
      rw [List.filter_cons, List.filter_cons, ih hl.2]
      by_cases hy : getWeight y == w <;> simp [hy]
    · push_neg at h
      simp only [insertByWeight, if_neg (not_le.mpr h)]
      have hnil : (y :: ys).filter (fun r => getWeight r == w) = [] ∨ getWeight x ≠ w := by
        by_cases hxw : getWeight x = w
        · left
          refine filter_weight_eq_nil ?_
          intro a ha
          rcases List.mem_cons.mp ha with rfl | ha
          · omega
          · have := hl.1 a ha
            simp only [wge] at this
            omega
        · right; exact hxw
      rw [List.filter_cons]
      rcases hnil with hnil | hne
      · by_cases hxw : getWeight x == w
        · simp only [hxw, if_pos]
          rw [hnil]
          have hy : (getWeight y == w) = false := by
            rw [List.filter_cons] at hnil
            by_contra hc
            simp only [Bool.not_eq_false] at hc
            simp [hc] at hnil
          rw [List.filter_cons] at hnil
          simp only [hy, Bool.false_eq_true, if_neg, not_false_iff] at hnil
          simp [hy, hnil]
        · simp only [hxw, Bool.false_eq_true, if_neg, not_false_iff]
          simp [List.filter_cons]
      · have hxw : (getWeight x == w) = false := by simpa using hne
        simp [hxw, List.filter_cons]

theorem sortByWeight_aux_perm (l acc : List PortCheck) :
    (l.foldl (fun a x => insertByWeight x a) acc).Perm (acc ++ l) := by
  induction l generalizing acc with
  | nil => simp
  | cons x xs ih =>
    simp only [List.foldl_cons]
    refine (ih (insertByWeight x acc)).trans ?_
    exact ((insertByWeight_perm x acc).append_right xs).trans List.perm_middle.symm

theorem sortByWeight_aux_pairwise (l : List PortCheck) {acc : List PortCheck}
    (hacc : acc.Pairwise wge) :
    (l.foldl (fun a x => insertByWeight x a) acc).Pairwise wge := by
  induction l generalizing acc with
  | nil => simpa
  | cons x xs ih => exact ih (insertByWeight_pairwise hacc)

theorem sortByWeight_aux_filter (l : List PortCheck) {acc : List PortCheck} (w : Nat)
    (hacc : acc.Pairwise wge) :
    (l.foldl (fun a x => insertByWeight x a) acc).filter (fun r => getWeight r == w) =
      acc.filter (fun r => getWeight r == w) ++ l.filter (fun r => getWeight r == w) := by
  induction l generalizing acc with
  | nil => simp
  | cons x xs ih =>
    simp only [List.foldl_cons]
    rw [ih (insertByWeight_pairwise hacc), insertByWeight_filter x w hacc, List.filter_cons]
    by_cases hx : getWeight x == w <;> simp [hx]

theorem sortByWeight_perm (l : List PortCheck) : (sortByWeight l).Perm l := by
  simpa [sortByWeight] using sortByWeight_aux_perm l []

theorem sortByWeight_pairwise (l : List PortCheck) : (sortByWeight l).Pairwise wge :=
  sortByWeight_aux_pairwise l (by simp)

theorem sortByWeight_filter (l : List PortCheck) (w : Nat) :
    (sortByWeight l).filter (fun r => getWeight r == w) = l.filter (fun r => getWeight r == w) := by
  simpa [sortByWeight] using sortByWeight_aux_filter l w (List.Pairwise.nil)

theorem activePred_eq_not_closed (r : PortCheck) :
    activePred r = !(r.status == Status.CLOSED) := by
  rcases r with ⟨u, pr, p, st⟩
  cases st <;> rfl

/-! ### Redirect gate (`processedTabs` and the navigation listener, lines 66-156) -/

/-- Engine state shared across navigation events: the `processedTabs` lock
set (line 66) and the pending `setTimeout` deletions scheduled on line 84,
as (fire time, lock key) pairs. -/
structure EngineState where
  processedTabs : List String
  timers : List (Nat × String)
deriving DecidableEq, Repr

/-- A navigation event as the listener sees it: `details.frameId`,
`details.tabId`, the raw `details.url`, and the fields of
`new URL(details.url)` that the script reads (the URL parse itself is the
browser's). -/
structure NavDetails where
  frameId : Nat
  tabId : Nat
  rawUrl : String
  protocol : String
  hostname : String
  port : String
deriving DecidableEq, Repr

/-- Externally observable effect of one listener invocation: either no
command (every plain `return`) or a `chrome.tabs.update` redirect. -/
inductive NavAction where
  | suppress
  | redirect : String → NavAction
deriving DecidableEq, Repr

/-- Result of one listener invocation: new engine state, the action, and
whether the probe fan-out (lines 94-102) was launched. -/
structure StepResult where
  state : EngineState
  action : NavAction
  scanned : Bool
deriving DecidableEq, Repr

/-- Event-loop timer semantics: before an event at time `now` is handled,
every `setTimeout` deletion whose fire time has arrived has removed its key
from `processedTabs`. -/
def fireTimers (now : Nat) (s : EngineState) : EngineState :=
  ⟨s.processedTabs.filter (fun k => !(s.timers.any (fun tk => decide (tk.1 ≤ now) && tk.2 == k))),
   s.timers.filter (fun tk => !(decide (tk.1 ≤ now)))⟩

/-- The lock key of line 81: `` `${details.tabId}-${hostname}` ``. -/
def lockKey (d : NavDetails) : String :=
  toString d.tabId ++ "-" ++ d.hostname

/-- JavaScript `String.prototype.startsWith`: case-sensitive prefix test
(line 145). -/
def jsStartsWith (s pre : String) : Bool :=
  pre.data.isPrefixOf s.data

/-- The `onBeforeNavigate` listener body (lines 70-156), with due timers
fired first.  `net` supplies the fetch result of each candidate probe. -/
def handleNavigate (s : EngineState) (now : Nat) (d : NavDetails)
    (net : Nat → String → FetchResult) : StepResult :=
  let s1 := fireTimers now s
  if d.frameId ≠ 0 then ⟨s1, .suppress, false⟩
  else if isTargetIp d.hostname = false then ⟨s1, .suppress, false⟩
  else if lockKey d ∈ s1.processedTabs then
    ⟨⟨s1.processedTabs, s1.timers ++ [(now + 5000, lockKey d)]⟩, .suppress, false⟩
  else if ¬(d.protocol = "http:" ∧ (d.port = "" ∨ d.port = "80")) ∧ d.protocol ≠ "http:" then
    ⟨s1, .suppress, false⟩
  else
    match rank (scan d.hostname net) with
    | [] => ⟨s1, .suppress, true⟩
    | best :: _ =>
      if jsStartsWith d.rawUrl best.url then ⟨s1, .suppress, true⟩
      else ⟨⟨s1.processedTabs ++ [lockKey d], s1.timers⟩, .redirect best.url, true⟩

/-- Concrete navigation event used in examples: a plain-HTTP navigation to
a target address in tab 7. -/
def dHttp : NavDetails :=
  ⟨0, 7, "http://100.60.0.1/", "http:", "100.60.0.1", ""⟩

/-- Network behaviour where every probe resolves with a response. -/
def netAllOpen : Nat → String → FetchResult := fun _ _ => .response

example :
    rank (scan "100.60.0.1" netAllOpen) =
      [⟨"https://100.60.0.1:443", "https:", 443, .OPEN⟩,
       ⟨"https://100.60.0.1:8080", "https:", 8080, .OPEN⟩,
       ⟨"https://100.60.0.1:8888", "https:", 8888, .OPEN⟩,
       ⟨"http://100.60.0.1:8080", "http:", 8080, .OPEN⟩,
       ⟨"http://100.60.0.1:8888", "http:", 8888, .OPEN⟩] := by decide

example :
    (handleNavigate ⟨[], []⟩ 0 dHttp netAllOpen).action = .redirect "https://100.60.0.1:443" := by
  decide

example :
    (handleNavigate (handleNavigate ⟨[], []⟩ 0 dHttp netAllOpen).state 1000000 dHttp netAllOpen).action
      = .suppress := by decide

/-! ### Claims about the probe (C1, C5) -/

/-- Claim C1: for every probe, a cancelled (timed-out) attempt yields
CLOSED; any response before the deadline yields OPEN; a non-cancellation
transport error yields PROBABLY_OPEN_SSL (the spec's SSL_ANOMALY) on an
HTTPS candidate and CLOSED on an HTTP candidate; and the outcome's url is
always the string `scheme://hostname:port`. -/
theorem checkPort_classification (h : String) (p : Nat) (pr : String) (res : FetchResult) :
    (checkPort h p pr res).url = pr ++ "//" ++ h ++ ":" ++ toString p
    ∧ (res = .response → (checkPort h p pr res).status = .OPEN)
    ∧ (res = .error "AbortError" → (checkPort h p pr res).status = .CLOSED)
    ∧ (∀ nm, res = .error nm → nm ≠ "AbortError" →
        (pr = "https:" → (checkPort h p pr res).status = .PROBABLY_OPEN_SSL)
        ∧ (pr = "http:" → (checkPort h p pr res).status = .CLOSED)) := by
  refine ⟨?_, ?_, ?_, ?_⟩
  · cases res with
    | response => rfl
    | error nm =>
      simp only [checkPort]
      split
      · rfl
      · split <;> rfl
  · intro hres; subst hres; rfl
  · intro hres; subst hres; rfl
  · intro nm hres hnm
    subst hres
    constructor
    · intro hpr
      simp [checkPort, hnm, hpr]
    · intro hpr
      subst hpr
      simp [checkPort, hnm]

/-- Witness for C1 at concrete probes. -/
theorem checkPort_classification_witness :
    (checkPort "100.60.0.1" 443 "https:" .response).status = .OPEN
    ∧ (checkPort "100.60.0.1" 443 "https:" .response).url = "https://100.60.0.1:443"
    ∧ (checkPort "100.60.0.1" 8888 "https:" (.error "AbortError")).status = .CLOSED
    ∧ (checkPort "100.60.0.1" 443 "https:" (.error "TypeError")).status = .PROBABLY_OPEN_SSL
    ∧ (checkPort "100.60.0.1" 8080 "http:" (.error "TypeError")).status = .CLOSED := by
  refine ⟨(checkPort_classification "100.60.0.1" 443 "https:" .response).2.1 rfl,
    ((checkPort_classification "100.60.0.1" 443 "https:" .response).1).trans (by decide),
    (checkPort_classification "100.60.0.1" 8888 "https:" (.error "AbortError")).2.2.1 rfl,
    ((checkPort_classification "100.60.0.1" 443 "https:"
      (.error "TypeError")).2.2.2 "TypeError" rfl (by decide)).1 rfl,
    ((checkPort_classification "100.60.0.1" 8080 "http:"
      (.error "TypeError")).2.2.2 "TypeError" rfl (by decide)).2 rfl⟩

/-- Counterexample to claim C5 as stated: on an HTTPS candidate an
unexpected non-cancellation error (here a RangeError, unrelated to SSL)
resolves to PROBABLY_OPEN_SSL, not to CLOSED. -/
theorem probe_unexpected_error_not_closed :
    (checkPort "100.60.0.1" 443 "https:" (FetchResult.error "RangeError")).status
        = Status.PROBABLY_OPEN_SSL
    ∧ (checkPort "100.60.0.1" 443 "https:" (FetchResult.error "RangeError")).status
        ≠ Status.CLOSED := by decide

/-- Claim C5 (amended): any non-cancellation error resolves to CLOSED on a
non-HTTPS candidate and to PROBABLY_OPEN_SSL on an HTTPS candidate — never
propagating — and the scan returns exactly one definitive outcome per
candidate, each the probe of that candidate. -/
theorem probe_error_totality :
    (∀ h p pr nm, nm ≠ "AbortError" → pr ≠ "https:" →
        (checkPort h p pr (.error nm)).status = .CLOSED)
    ∧ (∀ h p nm, nm ≠ "AbortError" →
        (checkPort h p "https:" (.error nm)).status = .PROBABLY_OPEN_SSL)
    ∧ (∀ h net, (scan h net).length = candidates.length)
    ∧ (∀ h net i (hi : i < (scan h net).length) (hc : i < candidates.length),
        (scan h net).get ⟨i, hi⟩ =
          checkPort h (candidates.get ⟨i, hc⟩).1 (candidates.get ⟨i, hc⟩).2
            (net (candidates.get ⟨i, hc⟩).1 (candidates.get ⟨i, hc⟩).2)) := by
  refine ⟨?_, ?_, ?_, ?_⟩
  · intro h p pr nm hnm hpr
    simp [checkPort, hnm, hpr]
  · intro h p nm hnm
    simp [checkPort, hnm]
  · intro h net
    simp [scan]
  · intro h net i hi hc
    simp [scan, List.getElem_map]

/-- Witness for C5's amended theorem at concrete probes. -/
theorem probe_error_totality_witness :
    (checkPort "100.60.0.1" 8080 "http:" (.error "RangeError")).status = .CLOSED
    ∧ (checkPort "100.60.0.1" 8080 "https:" (.error "RangeError")).status = .PROBABLY_OPEN_SSL
    ∧ (scan "100.60.0.1" netAllOpen).length = candidates.length
    ∧ (scan "100.60.0.1" netAllOpen).get ⟨0, by decide⟩
        = checkPort "100.60.0.1" 443 "https:" (netAllOpen 443 "https:") := by
  refine ⟨probe_error_totality.1 _ _ _ _ (by decide) (by decide),
    probe_error_totality.2.1 _ _ _ (by decide),
    probe_error_totality.2.2.1 _ _,
    probe_error_totality.2.2.2 "100.60.0.1" netAllOpen 0 (by decide) (by decide)⟩

/-! ### Claims about address classification (C2, C10) -/

theorem takeWhile_of_all {p : Char → Bool} {l : List Char} (h : l.all p = true) :
    l.takeWhile p = l := by
  induction l with
  | nil => rfl
  | cons c cs ih =>
    simp only [List.all_cons, Bool.and_eq_true] at h
    simp [List.takeWhile_cons, h.1, ih h.2]

/-- Claim C2: on every string whose dotted-quad parse has four octets in
0-255, `isTargetIp` answers exactly the inclusive range test on the 32-bit
value; boundary addresses behave as stated; every string that fails the
dotted pattern yields false. -/
theorem isTargetIp_spec :
    (∀ (s : String) (p1 p2 p3 p4 : List Char),
        splitDots s.data = [p1, p2, p3, p4] →
        (∀ p, p ∈ [p1, p2, p3, p4] →
          1 ≤ p.length ∧ p.length ≤ 3 ∧ p.all Char.isDigit = true ∧ digitsVal p ≤ 255) →
        (isTargetIp s = true ↔
          (1681653760 ≤ ((digitsVal p1 * 256 + digitsVal p2) * 256 + digitsVal p3) * 256 + digitsVal p4
            ∧ ((digitsVal p1 * 256 + digitsVal p2) * 256 + digitsVal p3) * 256 + digitsVal p4 ≤ 1682964480)
          ∨ (96796672 ≤ ((digitsVal p1 * 256 + digitsVal p2) * 256 + digitsVal p3) * 256 + digitsVal p4
            ∧ ((digitsVal p1 * 256 + digitsVal p2) * 256 + digitsVal p3) * 256 + digitsVal p4 ≤ 96862207)))
    ∧ (∀ s : String, matchesIpv4 s = false → isTargetIp s = false)
    ∧ isTargetIp "100.60.0.0" = true ∧ isTargetIp "100.80.0.0" = true
    ∧ isTargetIp "100.59.255.255" = false ∧ isTargetIp "100.80.0.1" = false
    ∧ isTargetIp "example.com" = false ∧ isTargetIp "" = false
    ∧ isTargetIp "::1" = false := by
  refine ⟨?_, ?_, by decide, by decide, by decide, by decide, by decide, by decide, by decide⟩
  · intro s p1 p2 p3 p4 hsplit hparts
    obtain ⟨h1a, h1b, h1c, h1d⟩ := hparts p1 (by simp)
    obtain ⟨h2a, h2b, h2c, h2d⟩ := hparts p2 (by simp)
    obtain ⟨h3a, h3b, h3c, h3d⟩ := hparts p3 (by simp)
    obtain ⟨h4a, h4b, h4c, h4d⟩ := hparts p4 (by simp)
    have hmatch : matchesIpv4 s = true := by
      unfold matchesIpv4
      rw [hsplit]
      simp only [List.length_cons, List.length_nil, List.all_cons, List.all_nil,
        Bool.and_eq_true, beq_iff_eq, decide_eq_true_eq]
      tauto
    have hval : ipToLong s =
        ((digitsVal p1 * 256 + digitsVal p2) * 256 + digitsVal p3) * 256 + digitsVal p4 := by
      unfold ipToLong
      rw [hsplit]
      simp only [List.foldl_cons, List.foldl_nil]
      unfold parseIntJs
      rw [takeWhile_of_all h1c, takeWhile_of_all h2c, takeWhile_of_all h3c, takeWhile_of_all h4c]
      omega
    have c1 : ipToLong "100.60.0.0" = 1681653760 := by decide
    have c2 : ipToLong "100.80.0.0" = 1682964480 := by decide
    have c3 : ipToLong "5.197.0.0" = 96796672 := by decide
    have c4 : ipToLong "5.197.255.255" = 96862207 := by decide
    unfold isTargetIp
    rw [if_pos hmatch]
    simp only [hval, c1, c2, c3, c4, decide_eq_true_eq]
  · intro s h
    unfold isTargetIp
    rw [if_neg]
    simp [h]

/-- Witness for C2: an interior address of range A and an address outside
both ranges. -/
theorem isTargetIp_spec_witness :
    isTargetIp "100.70.0.0" = true ∧ isTargetIp "10.0.0.1" = false := by
  constructor
  · exact (isTargetIp_spec.1 "100.70.0.0" ['1','0','0'] ['7','0'] ['0'] ['0']
      (by decide) (by decide)).mpr (by decide)
  · have h := isTargetIp_spec.1 "10.0.0.1" ['1','0'] ['0'] ['0'] ['1'] (by decide) (by decide)
    cases hb : isTargetIp "10.0.0.1"
    · rfl
    · exact absurd (h.mp hb) (by decide)

/-- Claim C10: the dotted pattern accepts octets above 255, and the
shift-and-add conversion carries them into higher octets, so the invalid
string "5.196.256.0" evaluates to the same 32-bit value as 5.197.0.0 and is
classified as a target address. -/
theorem ipToLong_overflow_alias :
    matchesIpv4 "5.196.256.0" = true
    ∧ (splitDots "5.196.256.0".data).map digitsVal = [5, 196, 256, 0]
    ∧ 255 < 256
    ∧ ipToLong "5.196.256.0" = ipToLong "5.197.0.0"
    ∧ isTargetIp "5.196.256.0" = true := by decide

/-! ### Claims about ranking (C3, C8) -/

/-- Sample outcomes for the worked examples of C3. -/
def exOpen443 : PortCheck := ⟨"https://h:443", "https:", 443, .OPEN⟩

def exSsl8080 : PortCheck := ⟨"https://h:8080", "https:", 8080, .PROBABLY_OPEN_SSL⟩

def exClosed8888 : PortCheck := ⟨"https://h:8888", "https:", 8888, .CLOSED⟩

def exOpen8080 : PortCheck := ⟨"https://h:8080", "https:", 8080, .OPEN⟩

def exOpen8888 : PortCheck := ⟨"https://h:8888", "https:", 8888, .OPEN⟩

/-- Claim C3: ranking discards exactly the CLOSED outcomes, scores each
survivor as status term (100/50) + scheme term (10 for https) + port term
(3/2/1/0), and sorts in descending score order, stably (elements of each
fixed score keep their original relative order); the two worked examples of
the spec evaluate as stated. -/
theorem rank_spec :
    (∀ l, (rank l).Perm (l.filter (fun r => !(r.status == Status.CLOSED))))
    ∧ (∀ l, (rank l).Pairwise (fun a b => getWeight b ≤ getWeight a))
    ∧ (∀ l w, (rank l).filter (fun r => getWeight r == w)
        = (l.filter (fun r => !(r.status == Status.CLOSED))).filter (fun r => getWeight r == w))
    ∧ (∀ r : PortCheck, getWeight r =
        (if r.status == .OPEN then 100 else if r.status == .PROBABLY_OPEN_SSL then 50 else 0)
        + (if r.protocol == "https:" then 10 else 0)
        + (if r.port == 443 then 3 else if r.port == 8080 then 2 else if r.port == 8888 then 1 else 0))
    ∧ rank [exOpen443, exSsl8080, exClosed8888] = [exOpen443, exSsl8080]
    ∧ getWeight exOpen443 = 113 ∧ getWeight exSsl8080 = 62
    ∧ rank [exOpen8080, exOpen8888] = [exOpen8080, exOpen8888]
    ∧ getWeight exOpen8080 = 112 ∧ getWeight exOpen8888 = 111 := by
  have hfilter : ∀ l : List PortCheck,
      l.filter activePred = l.filter (fun r => !(r.status == Status.CLOSED)) := by
    intro l
    apply List.filter_congr
    intro r _
    exact activePred_eq_not_closed r
  refine ⟨?_, ?_, ?_, ?_, by decide, by decide, by decide, by decide, by decide, by decide⟩
  · intro l
    rw [rank, hfilter]
    exact sortByWeight_perm _
  · intro l
    exact sortByWeight_pairwise _
  · intro l w
    rw [rank, hfilter]
    exact sortByWeight_filter _ w
  · intro r
    rfl

theorem portPriority_le_three (p : Nat) : portPriority p ≤ 3 := by
  unfold portPriority
  by_cases h1 : p == 443 <;> by_cases h2 : p == 8080 <;> by_cases h3 : p == 8888 <;>
    simp [h1, h2, h3]

/-- Claim C8: an OPEN outcome always outscores a PROBABLY_OPEN_SSL
(SSL_ANOMALY) outcome, whatever the schemes and ports: the 50-point status
gap exceeds the maximal scheme term (10) plus port term (3). -/
theorem open_outranks_ssl (a b : PortCheck)
    (ha : a.status = .OPEN) (hb : b.status = .PROBABLY_OPEN_SSL) :
    getWeight b < getWeight a := by
  have hpa := portPriority_le_three a.port
  have hpb := portPriority_le_three b.port
  unfold getWeight
  rw [ha, hb]
  by_cases h1 : a.protocol == "https:" <;> by_cases h2 : b.protocol == "https:" <;>
    simp [h1, h2] <;> omega

/-- Witness for C8: an HTTPS PROBABLY_OPEN_SSL outcome on the
highest-priority port still scores below an HTTP OPEN outcome on an
unlisted port. -/
theorem open_outranks_ssl_witness :
    getWeight ⟨"https://h:443", "https:", 443, .PROBABLY_OPEN_SSL⟩
      < getWeight ⟨"http://h:9999", "http:", 9999, .OPEN⟩ :=
  open_outranks_ssl _ _ rfl rfl

/-! ### Gate lemmas -/

theorem fireTimers_keeps_key {k : String} {now : Nat} {s : EngineState}
    (hmem : k ∈ s.processedTabs) (hno : ∀ e ∈ s.timers, e.2 ≠ k) :
    k ∈ (fireTimers now s).processedTabs := by
  simp only [fireTimers, List.mem_filter]
  refine ⟨hmem, ?_⟩
  simp only [Bool.not_eq_eq_eq_not, Bool.not_true, List.any_eq_false]
  intro e he
  simp [hno e he]

theorem fireTimers_drops_key {k : String} {now : Nat} {s : EngineState}
    (e : Nat × String) (he : e ∈ s.timers) (hte : e.1 ≤ now) (hek : e.2 = k) :
    k ∉ (fireTimers now s).processedTabs := by
  simp only [fireTimers, List.mem_filter]
  rintro ⟨-, hpred⟩
  simp only [Bool.not_eq_eq_eq_not, Bool.not_true, List.any_eq_false] at hpred
  have := hpred e he
  simp [hte, hek] at this

theorem fireTimers_sub_processedTabs {k : String} {now : Nat} {s : EngineState}
    (h : k ∈ (fireTimers now s).processedTabs) : k ∈ s.processedTabs :=
  (List.mem_filter.mp h).1

theorem fireTimers_sub_timers {k : String} {now : Nat} {s : EngineState}
    (hno : ∀ e ∈ s.timers, e.2 ≠ k) :
    ∀ e ∈ (fireTimers now s).timers, e.2 ≠ k :=
  fun e he => hno e (List.mem_filter.mp he).1

theorem handleNavigate_entry_gate {s : EngineState} {now : Nat} {d : NavDetails}
    (net : Nat → String → FetchResult)
    (hf : d.frameId = 0) (ht : isTargetIp d.hostname = true)
    (hk : lockKey d ∉ (fireTimers now s).processedTabs)
    (hp : d.protocol ≠ "http:") :
    handleNavigate s now d net = ⟨fireTimers now s, .suppress, false⟩ := by
  simp only [handleNavigate]
  rw [if_neg (by simp [hf]), if_neg (by simp [ht]), if_neg hk,
    if_pos ⟨fun hc => hp hc.1, hp⟩]

theorem handleNavigate_locked {s : EngineState} {now : Nat} {d : NavDetails}
    (net : Nat → String → FetchResult)
    (hf : d.frameId = 0) (ht : isTargetIp d.hostname = true)
    (hk : lockKey d ∈ (fireTimers now s).processedTabs) :
    handleNavigate s now d net =
      ⟨⟨(fireTimers now s).processedTabs, (fireTimers now s).timers ++ [(now + 5000, lockKey d)]⟩,
       .suppress, false⟩ := by
  simp only [handleNavigate]
  rw [if_neg (by simp [hf]), if_neg (by simp [ht]), if_pos hk]

theorem handleNavigate_redirects {s : EngineState} {now : Nat} {d : NavDetails}
    (net : Nat → String → FetchResult) {best : PortCheck} {rest : List PortCheck}
    (hf : d.frameId = 0) (ht : isTargetIp d.hostname = true)
    (hk : lockKey d ∉ (fireTimers now s).processedTabs)
    (hp : d.protocol = "http:")
    (hbest : rank (scan d.hostname net) = best :: rest)
    (hstart : jsStartsWith d.rawUrl best.url = false) :
    handleNavigate s now d net =
      ⟨⟨(fireTimers now s).processedTabs ++ [lockKey d], (fireTimers now s).timers⟩,
       .redirect best.url, true⟩ := by
  simp only [handleNavigate]
  rw [if_neg (by simp [hf]), if_neg (by simp [ht]), if_neg hk, if_neg (by simp [hp]), hbest]
  simp [hstart]

theorem handleNavigate_alreadyAtBest {s : EngineState} {now : Nat} {d : NavDetails}
    (net : Nat → String → FetchResult) {best : PortCheck} {rest : List PortCheck}
    (hf : d.frameId = 0) (ht : isTargetIp d.hostname = true)
    (hk : lockKey d ∉ (fireTimers now s).processedTabs)
    (hp : d.protocol = "http:")
    (hbest : rank (scan d.hostname net) = best :: rest)
    (hstart : jsStartsWith d.rawUrl best.url = true) :
    handleNavigate s now d net = ⟨fireTimers now s, .suppress, true⟩ := by
  simp only [handleNavigate]
  rw [if_neg (by simp [hf]), if_neg (by simp [ht]), if_neg hk, if_neg (by simp [hp]), hbest]
  simp [hstart]

/-! ### Claims about the redirect gate (C4, C6, C7, C9) -/

/-- Claim C6: within the cooldown window, two consecutive invocations for
the same key with the same reachable best candidate yield REDIRECT then
SUPPRESS, the key being present in the lock set at the second invocation. -/
theorem redirect_then_suppress (s0 : EngineState) (t1 t2 : Nat) (d : NavDetails)
    (net : Nat → String → FetchResult) (best : PortCheck) (rest : List PortCheck)
    (hf : d.frameId = 0) (ht : isTargetIp d.hostname = true)
    (hk : lockKey d ∉ s0.processedTabs)
    (hnt : ∀ e ∈ s0.timers, e.2 ≠ lockKey d)
    (hp : d.protocol = "http:")
    (hbest : rank (scan d.hostname net) = best :: rest)
    (hstart : jsStartsWith d.rawUrl best.url = false)
    (_h12 : t1 ≤ t2) (_hcool : t2 < t1 + 5000) :
    (handleNavigate s0 t1 d net).action = .redirect best.url
    ∧ lockKey d ∈ (fireTimers t2 (handleNavigate s0 t1 d net).state).processedTabs
    ∧ (handleNavigate (handleNavigate s0 t1 d net).state t2 d net).action = .suppress := by
  have hk1 : lockKey d ∉ (fireTimers t1 s0).processedTabs :=
    fun hm => hk (fireTimers_sub_processedTabs hm)
  have h1 := handleNavigate_redirects net hf ht hk1 hp hbest hstart
  have hkey2 : lockKey d ∈
      (fireTimers t2 (⟨(fireTimers t1 s0).processedTabs ++ [lockKey d],
        (fireTimers t1 s0).timers⟩ : EngineState)).processedTabs :=
    fireTimers_keeps_key (by simp) (fireTimers_sub_timers hnt)
  have h2 := handleNavigate_locked net hf ht hkey2
  refine ⟨by rw [h1], by rw [h1]; exact hkey2, ?_⟩
  rw [h1, h2]

/-- Witness for C6 at a concrete two-invocation run. -/
theorem redirect_then_suppress_witness :
    (handleNavigate ⟨[], []⟩ 0 dHttp netAllOpen).action = .redirect "https://100.60.0.1:443"
    ∧ (handleNavigate (handleNavigate ⟨[], []⟩ 0 dHttp netAllOpen).state 1000 dHttp netAllOpen).action
        = .suppress := by
  have h := redirect_then_suppress ⟨[], []⟩ 0 1000 dHttp netAllOpen
    ⟨"https://100.60.0.1:443", "https:", 443, .OPEN⟩
    [⟨"https://100.60.0.1:8080", "https:", 8080, .OPEN⟩,
     ⟨"https://100.60.0.1:8888", "https:", 8888, .OPEN⟩,
     ⟨"http://100.60.0.1:8080", "http:", 8080, .OPEN⟩,
     ⟨"http://100.60.0.1:8888", "http:", 8888, .OPEN⟩]
    rfl (by decide) (by decide) (by decide) rfl (by decide) (by decide) (by decide) (by decide)
  exact ⟨h.1, h.2.2⟩

/-- Counterexample to claim C4 as stated: after a redirect at time 0, the
cooldown (5000 ms) is long past at time 1000000, the same reachable best
candidate is available, yet the gate still SUPPRESSES — the lock entry did
not self-expire without an intervening event. -/
theorem lock_no_self_expiry_counterexample :
    (handleNavigate ⟨[], []⟩ 0 dHttp netAllOpen).action = .redirect "https://100.60.0.1:443"
    ∧ (handleNavigate (handleNavigate ⟨[], []⟩ 0 dHttp netAllOpen).state 1000000 dHttp
        netAllOpen).action = .suppress
    ∧ (handleNavigate (handleNavigate ⟨[], []⟩ 0 dHttp netAllOpen).state 1000000 dHttp
        netAllOpen).action ≠ .redirect "https://100.60.0.1:443" := by decide

/-- Claim C4 (amended): a redirect adds the lock key with no expiry (the
timer list is unchanged), so a later invocation — however long after — is
suppressed; that suppressed invocation schedules removal of the key 5000 ms
later, and an invocation at or after that time yields REDIRECT again. -/
theorem lock_deferred_release (s0 : EngineState) (t1 t2 t3 : Nat) (d : NavDetails)
    (net : Nat → String → FetchResult) (best : PortCheck) (rest : List PortCheck)
    (hf : d.frameId = 0) (ht : isTargetIp d.hostname = true)
    (hk : lockKey d ∉ s0.processedTabs)
    (hnt : ∀ e ∈ s0.timers, e.2 ≠ lockKey d)
    (hp : d.protocol = "http:")
    (hbest : rank (scan d.hostname net) = best :: rest)
    (hstart : jsStartsWith d.rawUrl best.url = false)
    (_h12 : t1 ≤ t2) (h23 : t2 + 5000 ≤ t3) :
    (handleNavigate s0 t1 d net).action = .redirect best.url
    ∧ (handleNavigate s0 t1 d net).state.timers = (fireTimers t1 s0).timers
    ∧ (handleNavigate (handleNavigate s0 t1 d net).state t2 d net).action = .suppress
    ∧ (handleNavigate (handleNavigate (handleNavigate s0 t1 d net).state t2 d net).state
        t3 d net).action = .redirect best.url := by
  have hk1 : lockKey d ∉ (fireTimers t1 s0).processedTabs :=
    fun hm => hk (fireTimers_sub_processedTabs hm)
  have h1 := handleNavigate_redirects net hf ht hk1 hp hbest hstart
  have hkey2 : lockKey d ∈
      (fireTimers t2 (⟨(fireTimers t1 s0).processedTabs ++ [lockKey d],
        (fireTimers t1 s0).timers⟩ : EngineState)).processedTabs :=
    fireTimers_keeps_key (by simp) (fireTimers_sub_timers hnt)
  have h2 := handleNavigate_locked net hf ht hkey2
  have hkey3 : lockKey d ∉
      (fireTimers t3
        (⟨(fireTimers t2 (⟨(fireTimers t1 s0).processedTabs ++ [lockKey d],
            (fireTimers t1 s0).timers⟩ : EngineState)).processedTabs,
          (fireTimers t2 (⟨(fireTimers t1 s0).processedTabs ++ [lockKey d],
            (fireTimers t1 s0).timers⟩ : EngineState)).timers
            ++ [(t2 + 5000, lockKey d)]⟩ : EngineState)).processedTabs :=
    fireTimers_drops_key (t2 + 5000, lockKey d) (by simp) h23 rfl
  have h3 := handleNavigate_redirects net hf ht hkey3 hp hbest hstart
  refine ⟨by rw [h1], by rw [h1], by rw [h1, h2], ?_⟩
  rw [h1, h2, h3]

/-- Witness for C4's amended theorem at a concrete three-invocation run. -/
theorem lock_deferred_release_witness :
    (handleNavigate ⟨[], []⟩ 0 dHttp netAllOpen).action = .redirect "https://100.60.0.1:443"
    ∧ (handleNavigate (handleNavigate ⟨[], []⟩ 0 dHttp netAllOpen).state 7000 dHttp
        netAllOpen).action = .suppress
    ∧ (handleNavigate (handleNavigate (handleNavigate ⟨[], []⟩ 0 dHttp netAllOpen).state 7000
        dHttp netAllOpen).state 12000 dHttp netAllOpen).action = .redirect "https://100.60.0.1:443" := by
  have h := lock_deferred_release ⟨[], []⟩ 0 7000 12000 dHttp netAllOpen
    ⟨"https://100.60.0.1:443", "https:", 443, .OPEN⟩
    [⟨"https://100.60.0.1:8080", "https:", 8080, .OPEN⟩,
     ⟨"https://100.60.0.1:8888", "https:", 8888, .OPEN⟩,
     ⟨"http://100.60.0.1:8080", "http:", 8080, .OPEN⟩,
     ⟨"http://100.60.0.1:8888", "http:", 8888, .OPEN⟩]
    rfl (by decide) (by decide) (by decide) rfl (by decide) (by decide) (by decide) (by decide)
  exact ⟨h.1, h.2.2.1, h.2.2.2⟩

/-- Navigation event already using HTTPS on a non-default port. -/
def dHttps8888 : NavDetails :=
  ⟨0, 7, "https://100.60.0.1:8888/", "https:", "100.60.0.1", "8888"⟩

/-- Navigation event using plain HTTP on a non-default port. -/
def dHttp8080 : NavDetails :=
  ⟨0, 7, "http://100.60.0.1:8080/", "http:", "100.60.0.1", "8080"⟩

/-- Network behaviour where only HTTP on 8080 answers; every other probe
times out. -/
def netOnlyHttp8080 : Nat → String → FetchResult :=
  fun p pr => if pr == "http:" && p == 8080 then .response else .error "AbortError"

/-- Claim C7: with the key unlocked, a navigation that is not
plain-HTTP-on-default-port and whose scheme is not http at all is
suppressed before any probe is launched, while plain HTTP on a non-default
port proceeds to scanning. -/
theorem entry_gate_spec :
    (∀ (s : EngineState) (now : Nat) (d : NavDetails) (net : Nat → String → FetchResult),
      d.frameId = 0 → isTargetIp d.hostname = true →
      lockKey d ∉ (fireTimers now s).processedTabs →
      ¬(d.protocol = "http:" ∧ (d.port = "" ∨ d.port = "80")) →
      d.protocol ≠ "http:" →
      handleNavigate s now d net = ⟨fireTimers now s, .suppress, false⟩)
    ∧ (∀ (s : EngineState) (now : Nat) (d : NavDetails) (net : Nat → String → FetchResult),
      d.frameId = 0 → isTargetIp d.hostname = true →
      lockKey d ∉ (fireTimers now s).processedTabs →
      d.protocol = "http:" → d.port ≠ "" → d.port ≠ "80" →
      (handleNavigate s now d net).scanned = true) := by
  constructor
  · intro s now d net hf ht hk _hnd hp
    exact handleNavigate_entry_gate net hf ht hk hp
  · intro s now d net hf ht hk hp _ _
    simp only [handleNavigate]
    rw [if_neg (by simp [hf]), if_neg (by simp [ht]), if_neg hk, if_neg (by simp [hp])]
    cases hr : rank (scan d.hostname net) with
    | nil => rfl
    | cons best rest =>
      split
      · rfl
      · split <;> rfl

/-- Witness for C7: an HTTPS navigation is suppressed unscanned; an HTTP
navigation on port 8080 is scanned. -/
theorem entry_gate_spec_witness :
    handleNavigate ⟨[], []⟩ 0 dHttps8888 netAllOpen = ⟨⟨[], []⟩, .suppress, false⟩
    ∧ (handleNavigate ⟨[], []⟩ 0 dHttp8080 netAllOpen).scanned = true := by
  constructor
  · exact entry_gate_spec.1 ⟨[], []⟩ 0 dHttps8888 netAllOpen rfl (by decide) (by decide)
      (by decide) (by decide)
  · exact entry_gate_spec.2 ⟨[], []⟩ 0 dHttp8080 netAllOpen rfl (by decide) (by decide)
      rfl (by decide) (by decide)

/-- Claim C9: when the raw navigation URL already starts with the best
candidate's URL, even a first invocation for the key suppresses, issues no
redirect, and leaves the lock state unchanged (the result state is exactly
the timer-swept input state, with no key added). -/
theorem alreadyAtBest_suppress (s : EngineState) (now : Nat) (d : NavDetails)
    (net : Nat → String → FetchResult) (best : PortCheck) (rest : List PortCheck)
    (hf : d.frameId = 0) (ht : isTargetIp d.hostname = true)
    (hk : lockKey d ∉ (fireTimers now s).processedTabs)
    (hp : d.protocol = "http:")
    (hbest : rank (scan d.hostname net) = best :: rest)
    (hstart : jsStartsWith d.rawUrl best.url = true) :
    handleNavigate s now d net = ⟨fireTimers now s, .suppress, true⟩ :=
  handleNavigate_alreadyAtBest net hf ht hk hp hbest hstart

/-- Witness for C9: navigating to `http://100.60.0.1:8080/` when HTTP on
8080 is itself the best candidate. -/
theorem alreadyAtBest_suppress_witness :
    handleNavigate ⟨[], []⟩ 0 dHttp8080 netOnlyHttp8080 = ⟨⟨[], []⟩, .suppress, true⟩ :=
  alreadyAtBest_suppress ⟨[], []⟩ 0 dHttp8080 netOnlyHttp8080
    ⟨"http://100.60.0.1:8080", "http:", 8080, .OPEN⟩ []
    rfl (by decide) (by decide) rfl (by decide) (by decide)
